import Mathlib

/-!
Shallow embedding of the Serenity/JS Screenplay actor execution model.

Source files embedded:
- packages/core/src/screenplay/Interaction.ts
- packages/playwright/src/screenplay/abilities/BrowseTheWebWithPlaywright.ts
- packages/cucumber/src/cli/output/TempFileOutputDescriptor.ts

Parts of the repository that the spec describes but whose source is not
available here (the Actor sequencing engine, the ability registry, the
Playwright browsing session, the FileSystem helper) are modelled from the
specification text; each such definition carries a doc comment starting
with "Modelled from the spec:".
-/

namespace Serenity

/-- JavaScript error values, distinguished by the error kinds the spec names:
plain errors, the AbilityNotFoundError raised by the ability registry, and a
generic null/undefined-reference failure (TypeError) used to state what the
registry must NOT raise. -/
inductive JsError where
  | error (message : String)
  | abilityNotFound (message : String)
  | nullReference (message : String)
  deriving DecidableEq, Repr

/-- A source location: a file and a line, as recorded in a captured call stack
frame. -/
structure FrameLoc where
  file : String
  line : Nat
  deriving DecidableEq, Repr

/-- The possible behaviours of a JavaScript function of type
`(actor) => Promise<void> | void` when invoked: it can throw synchronously,
return a plain (unit) value, or return a promise that later settles with a
result or a rejection. -/
inductive FnOutcome where
  | syncThrow (e : JsError)
  | unitValue
  | promise (p : Except JsError Unit)
  deriving Repr

/-- The observable result of calling a JavaScript method declared to return a
`Promise<void>`: either a synchronous throw escaping the call, or a returned
promise that settles with a result or a rejection. -/
inductive PerformResult where
  | syncThrow (e : JsError)
  | promise (p : Except JsError Unit)
  deriving Repr

/-- Embedding of the package-private class `DynamicallyGeneratedInteraction`
(Interaction.ts, lines 102-117): it stores the description verbatim, the
source location computed by `Interaction.callerLocation(4)`, and the
user-supplied interaction body. The actor type is abstract here, since the
body only receives the actor as an opaque capability view. -/
structure DynamicallyGeneratedInteraction (Actor : Type) where
  description : String
  location : Option FrameLoc
  interaction : Actor → FnOutcome

/-- Embedding of `DynamicallyGeneratedInteraction.performAs` (Interaction.ts,
lines 110-116):

    try { return Promise.resolve(this.interaction(actor)); }
    catch (error) { return Promise.reject(error); }

A synchronous throw out of the body is caught and turned into a rejected
promise; a plain return value is wrapped with `Promise.resolve`; a returned
promise is adopted by `Promise.resolve` unchanged. -/
def DynamicallyGeneratedInteraction.performAs {Actor : Type}
    (i : DynamicallyGeneratedInteraction Actor) (actor : Actor) : PerformResult :=
  match i.interaction actor with
  | .syncThrow e => .promise (.error e)
  | .unitValue => .promise (.ok ())
  | .promise p => .promise p

/-- Modelled from the spec: `Activity.callerLocation(frameOffset)` (defined on
the Activity base class, whose source is not included here) captures the
current call stack and reads the frame at the given fixed numeric offset. -/
def callerLocation (stack : List FrameLoc) (frameOffset : Nat) : Option FrameLoc :=
  stack.get? frameOffset

/-- Embedding of `Interaction.where(description, interaction)` together with
the `DynamicallyGeneratedInteraction` constructor (Interaction.ts, lines 78-83
and 103-108): the description is passed through verbatim to the Activity
constructor and the location is `Interaction.callerLocation(4)`. The call
stack visible at capture time is made explicit as a parameter. -/
def Interaction.whereFactory {Actor : Type} (description : String)
    (interaction : Actor → FnOutcome) (stack : List FrameLoc) :
    DynamicallyGeneratedInteraction Actor :=
  { description := description
    location := callerLocation stack 4
    interaction := interaction }

/-- Modelled from the spec: when a caller invokes `Interaction.where`, by the
time `callerLocation` captures the stack four frames of factory internals sit
on top of the caller's own frames (the stack-capture helper, the Activity
constructor, the DynamicallyGeneratedInteraction constructor, and
`Interaction.where` itself), so the frame at the fixed offset 4 is the
caller's invocation site. -/
def constructionStack (callerFrames : List FrameLoc) : List FrameLoc :=
  ⟨"Activity.ts", 20⟩ :: ⟨"Activity.ts", 14⟩ :: ⟨"Interaction.ts", 107⟩ ::
    ⟨"Interaction.ts", 82⟩ :: callerFrames

/-- Modelled from the spec: at reporting time (and only then) the literal
`#actor` placeholder token in a description template is replaced with the name
of the performing actor. -/
def describedBy (template actorName : String) : String :=
  template.replace "#actor" actorName

/-- A concrete interaction whose body always throws synchronously; used to
exercise the `performAs` error path on a closed input. -/
def throwingInteraction : DynamicallyGeneratedInteraction Unit :=
  { description := "#actor goes boom"
    location := none
    interaction := fun _ => .syncThrow (.error "boom") }

/-- Modelled from the spec: an activity as the sequencing engine sees it — a
state transformer over the actor-scoped state (ability state plus the
append-only artifact collector), producing the possibly-failed outcome of its
awaited `performAs`. The state survives a failure (a JavaScript throw does not
roll back mutations already made to the actor's collector or abilities). -/
structure SActivity (σ : Type) where
  run : σ → σ × Option JsError

/-- Modelled from the spec: `Actor.attemptsTo(...activities)` executes each
activity strictly in order, awaiting each outcome; on the first failure it
stops immediately and propagates that original failure to the caller. -/
def attemptsTo {σ : Type} : List (SActivity σ) → σ → σ × Option JsError
  | [], s => (s, none)
  | a :: rest, s =>
    match a.run s with
    | (s1, none) => attemptsTo rest s1
    | (s1, some e) => (s1, some e)

/-- Sequential composition of activity state effects, ignoring outcomes; used
to describe the state reached after a run of succeeding activities. -/
def runSeq {σ : Type} : List (SActivity σ) → σ → σ
  | [], s => s
  | a :: rest, s => runSeq rest (a.run s).1

/-- Modelled from the spec: a Task composes an ordered list of child
activities under one description; its `performAs` is semantically
`actor.attemptsTo(...children)` on the same actor. -/
def Task.taskOf {σ : Type} (children : List (SActivity σ)) : SActivity σ :=
  ⟨fun s => attemptsTo children s⟩

/-- An activity over an artifact/trace collector that only ever appends to
it: whatever state it is run from, its resulting state extends that state. -/
def appendsOnly {α : Type} (a : SActivity (List α)) : Prop :=
  ∀ s, ∃ t, (a.run s).1 = s ++ t

/-- Instrumentation for witnesses: activity number `i` appends `i` to the
trace and succeeds. -/
def probe (i : Nat) : SActivity (List Nat) :=
  ⟨fun s => (s ++ [i], none)⟩

/-- Instrumentation for witnesses: activity number `i` appends `i` to the
trace and then fails with the error "boom". -/
def failingProbe (i : Nat) : SActivity (List Nat) :=
  ⟨fun s => (s ++ [i], some (.error "boom"))⟩

/-- Key sequencing lemma: if every activity in `pre` succeeds and `f` always
fails with `e`, then `attemptsTo (pre ++ f :: post)` runs exactly `pre` then
`f`, returns the state `f` left behind, and reports `e`; the result does not
depend on `post` at all. -/
theorem attemptsTo_split_at_failure {σ : Type} (pre post : List (SActivity σ))
    (f : SActivity σ) (e : JsError)
    (hpre : ∀ a ∈ pre, ∀ s, (a.run s).2 = none)
    (hf : ∀ s, (f.run s).2 = some e) (s : σ) :
    attemptsTo (pre ++ f :: post) s = ((f.run (runSeq pre s)).1, some e) := by
  induction pre generalizing s with
  | nil =>
    have h := hf s
    rcases hr : f.run s with ⟨s1, o⟩
    rw [hr] at h
    simp only at h
    subst h
    simp [attemptsTo, runSeq, hr]
  | cons a rest ih =>
    have ha := hpre a (List.mem_cons_self a rest) s
    rcases hr : a.run s with ⟨s1, o⟩
    rw [hr] at ha
    simp only at ha
    subst ha
    have hrest : ∀ b ∈ rest, ∀ s, (b.run s).2 = none :=
      fun b hb => hpre b (List.mem_cons_of_mem a hb)
    calc attemptsTo (a :: rest ++ f :: post) s
        = attemptsTo (rest ++ f :: post) s1 := by simp [attemptsTo, hr]
      _ = ((f.run (runSeq rest s1)).1, some e) := ih hrest s1
      _ = ((f.run (runSeq (a :: rest) s)).1, some e) := by simp [runSeq, hr]

/-- An ability instance: a capability kind (the registry key) plus an
instance identity, so that "returns that exact instance" is expressible. -/
structure Ability where
  kind : String
  id : Nat
  deriving DecidableEq, Repr

/-- Modelled from the spec: the per-actor state the ability registry claims
need — the actor's name and the mapping from capability kind to the ability
instance currently attached under that kind (at most one per kind). -/
structure ModelActor where
  name : String
  abilityOfKind : String → Option Ability

/-- Modelled from the spec: `whoCan(ability)` attaches the ability instance
under its capability kind key, overwriting any prior instance of the same
kind; abilities of other kinds are untouched. -/
def ModelActor.whoCan (actor : ModelActor) (a : Ability) : ModelActor :=
  { actor with
    abilityOfKind := fun k => if k = a.kind then some a else actor.abilityOfKind k }

/-- Modelled from the spec: `abilityTo(kind)` returns the attached instance
of that kind, and fails with an `AbilityNotFoundError` naming the actor and
the missing capability when no ability of that kind has been attached. -/
def ModelActor.abilityTo (actor : ModelActor) (kind : String) : Except JsError Ability :=
  match actor.abilityOfKind kind with
  | some a => .ok a
  | none => .error (.abilityNotFound (actor.name ++ " can't " ++ kind))

/-- A discardable ability as the teardown path sees it: its name (for
attributing failures) and the outcome of invoking its discard hook. -/
structure DAbility where
  name : String
  discardOutcome : Option JsError
  deriving DecidableEq, Repr

/-- Modelled from the spec: discarding an actor iterates all currently
attached abilities in order, invokes each discard hook even when earlier ones
failed, and collects every failure (tagged with the failing ability) for
aggregate reporting. Returns the list of abilities whose hook was invoked and
the aggregated failures. -/
def discardAll : List DAbility → List String × List (String × JsError)
  | [] => ([], [])
  | a :: rest =>
    let r := discardAll rest
    (a.name :: r.1,
      match a.discardOutcome with
      | none => r.2
      | some e => (a.name, e) :: r.2)

/-- A Playwright page: only whether it is still open matters here. -/
structure PlaywrightPage where
  isOpen : Bool
  deriving DecidableEq, Repr

/-- Modelled from the spec: the state of a `PlaywrightBrowsingSession` — the
pages it has opened so far (an empty list for a session whose browser
resources were never touched). -/
structure PlaywrightBrowsingSession where
  pages : List PlaywrightPage
  deriving DecidableEq, Repr

/-- Modelled from the spec: `PlaywrightBrowsingSession.closeAllPages` closes
every page of the session (closing an already-closed page is a no-op) and
does not throw, also when the session has no pages. -/
def closeAllPages (s : PlaywrightBrowsingSession) :
    PlaywrightBrowsingSession × Option JsError :=
  ({ pages := s.pages.map fun _ => { isOpen := false } }, none)

/-- Embedding of `BrowseTheWebWithPlaywright.discard` (lines 173-175):

    async discard(): Promise<void> { await this.session.closeAllPages(); }
-/
def BrowseTheWebWithPlaywright.discard (s : PlaywrightBrowsingSession) :
    PlaywrightBrowsingSession × Option JsError :=
  closeAllPages s

/-- Modelled from the spec: the FileSystem helper from the core io module,
reduced to what TempFileOutputDescriptor uses — a counter from which fresh
temp-file names are drawn and the set of files currently present. -/
structure FileSystem where
  nextTempId : Nat
  files : List String
  deriving DecidableEq, Repr

/-- Modelled from the spec: `FileSystem.tempFilePath(stem)` creates a fresh
dummy temp file whose name starts with the stem and returns its path together
with the updated file system. -/
def FileSystem.tempFilePath (fs : FileSystem) (stem : String) : String × FileSystem :=
  (stem ++ toString fs.nextTempId,
    { nextTempId := fs.nextTempId + 1
      files := (stem ++ toString fs.nextTempId) :: fs.files })

/-- Modelled from the spec: `FileSystem.remove(p)` deletes exactly the file
at path `p`, leaving every other file in place, and does not fail. -/
def FileSystem.remove (fs : FileSystem) (p : String) : FileSystem × Option JsError :=
  ({ fs with files := fs.files.filter fun q => q ≠ p }, none)

/-- Embedding of `TempFileOutputDescriptor` (TempFileOutputDescriptor.ts,
lines 14-28): the descriptor's only state is the path fixed by its
constructor. -/
structure TempFileOutputDescriptor where
  path : String
  deriving DecidableEq, Repr

/-- Embedding of the `TempFileOutputDescriptor` constructor (lines 17-19):
`this.path = this.fileSystem.tempFilePath('serenity-')`. -/
def TempFileOutputDescriptor.make (fs : FileSystem) :
    TempFileOutputDescriptor × FileSystem :=
  ({ path := (fs.tempFilePath "serenity-").1 }, (fs.tempFilePath "serenity-").2)

/-- Embedding of `TempFileOutputDescriptor.value` (lines 21-23). -/
def TempFileOutputDescriptor.value (d : TempFileOutputDescriptor) : String :=
  d.path

/-- Embedding of `TempFileOutputDescriptor.cleanUp` (lines 25-27):
`this.fileSystem.remove(this.path)`. -/
def TempFileOutputDescriptor.cleanUp (d : TempFileOutputDescriptor)
    (fs : FileSystem) : FileSystem × Option JsError :=
  fs.remove d.path

/-- A model actor holding no abilities at all; used as a concrete input. -/
def aliceNoAbilities : ModelActor :=
  { name := "Alice", abilityOfKind := fun _ => none }

/-- Singleton sequences: running `attemptsTo` on one activity is exactly
running that activity. -/
theorem attemptsTo_singleton {σ : Type} (a : SActivity σ) (s : σ) :
    attemptsTo [a] s = a.run s := by
  rcases h : a.run s with ⟨s1, o⟩
  cases o <;> simp [attemptsTo, h]

/-- C1: `performAs` of an interaction built by `Interaction.where` never
throws synchronously: a synchronous throw out of the body becomes a rejected
promise carrying the same error, a plain return resolves, a returned promise
is adopted unchanged, and in every case the result is a promise. -/
theorem performAs_wraps_sync_throws {Actor : Type}
    (i : DynamicallyGeneratedInteraction Actor) (actor : Actor) :
    (∀ e, i.interaction actor = .syncThrow e →
      i.performAs actor = .promise (.error e)) ∧
    (i.interaction actor = .unitValue →
      i.performAs actor = .promise (.ok ())) ∧
    (∀ p, i.interaction actor = .promise p →
      i.performAs actor = .promise p) ∧
    ∃ p, i.performAs actor = .promise p := by
  rcases h : i.interaction actor with e0 | _ | p0 <;>
    simp [DynamicallyGeneratedInteraction.performAs, h]

/-- Witness for C1: the always-throwing interaction yields a rejected promise
carrying the thrown error, not a synchronous throw. -/
theorem performAs_wraps_sync_throws_witness :
    throwingInteraction.performAs () = .promise (.error (.error "boom")) :=
  (performAs_wraps_sync_throws throwingInteraction ()).1 (.error "boom") rfl

/-- C2: in a sequence where every activity of `pre` succeeds and `f` fails
with `e`, `attemptsTo` runs all of `pre` in order (threading the state),
propagates the original error `e` to the caller, and the activities after `f`
never execute: the result does not mention `post`. -/
theorem attemptsTo_fail_fast {σ : Type} (pre post : List (SActivity σ))
    (f : SActivity σ) (e : JsError)
    (hpre : ∀ a ∈ pre, ∀ s, (a.run s).2 = none)
    (hf : ∀ s, (f.run s).2 = some e) (s : σ) :
    attemptsTo (pre ++ f :: post) s = ((f.run (runSeq pre s)).1, some e) :=
  attemptsTo_split_at_failure pre post f e hpre hf s

/-- Witness for C2: probes 0 and 1 succeed, probe 2 fails, probe 3 never
runs; the trace records exactly 0, 1, 2 and the original error surfaces. -/
theorem attemptsTo_fail_fast_witness :
    attemptsTo ([probe 0, probe 1] ++ failingProbe 2 :: [probe 3]) ([] : List Nat)
      = ([0, 1, 2], some (.error "boom")) := by
  have h := attemptsTo_fail_fast [probe 0, probe 1] [probe 3] (failingProbe 2)
      (.error "boom")
      (by
        intro a ha s
        rcases List.mem_cons.mp ha with h1 | h1
        · subst h1; rfl
        rcases List.mem_cons.mp h1 with h2 | h2
        · subst h2; rfl
        · exact absurd h2 (List.not_mem_nil a))
      (fun _ => rfl) []
  rw [h]
  rfl

/-- C3: when an activity fails mid-sequence, every artifact collected before
the failure survives in the collector: the collector state reached just
before the failing activity is an initial segment of the final collector
state (nothing is rolled back). -/
theorem attemptsTo_artifacts_preserved {α : Type}
    (pre post : List (SActivity (List α))) (f : SActivity (List α)) (e : JsError)
    (hpre : ∀ a ∈ pre, ∀ s, (a.run s).2 = none)
    (hf : ∀ s, (f.run s).2 = some e)
    (hfa : appendsOnly f) (s : List α) :
    ∃ t, (attemptsTo (pre ++ f :: post) s).1 = runSeq pre s ++ t := by
  obtain ⟨t, ht⟩ := hfa (runSeq pre s)
  refine ⟨t, ?_⟩
  rw [attemptsTo_split_at_failure pre post f e hpre hf s]
  exact ht

/-- Witness for C3: the artifacts 0 and 1 collected before the failure of
probe 2 remain in the final collector state. -/
theorem attemptsTo_artifacts_preserved_witness :
    ∃ t, (attemptsTo ([probe 0, probe 1] ++ failingProbe 2 :: [probe 3])
        ([] : List Nat)).1
      = runSeq [probe 0, probe 1] [] ++ t :=
  attemptsTo_artifacts_preserved [probe 0, probe 1] [probe 3] (failingProbe 2)
    (.error "boom")
    (by
      intro a ha s
      rcases List.mem_cons.mp ha with h1 | h1
      · subst h1; rfl
      rcases List.mem_cons.mp h1 with h2 | h2
      · subst h2; rfl
      · exact absurd h2 (List.not_mem_nil a))
    (fun _ => rfl)
    (fun s => ⟨[2], rfl⟩) []

/-- C4: a Task composed of the activities [A, B, C] executed via
`attemptsTo` is indistinguishable — same state trace, same outcome — from
calling `attemptsTo` on A, B, C directly. -/
theorem task_composition_transparent {σ : Type} (A B C : SActivity σ) (s : σ) :
    attemptsTo [Task.taskOf [A, B, C]] s = attemptsTo [A, B, C] s := by
  rw [attemptsTo_singleton]
  rfl

/-- C5: `abilityTo(kind)` after `whoCan(ability-of-kind)` returns that exact
instance, and after attaching two abilities of the same kind in order the
second one is returned (last-write-wins). -/
theorem whoCan_abilityTo_last_write_wins (actor : ModelActor) (a1 a2 : Ability)
    (h : a1.kind = a2.kind) :
    (actor.whoCan a1).abilityTo a1.kind = .ok a1 ∧
    ((actor.whoCan a1).whoCan a2).abilityTo a1.kind = .ok a2 := by
  constructor
  · simp [ModelActor.whoCan, ModelActor.abilityTo]
  · simp [ModelActor.whoCan, ModelActor.abilityTo, h]

/-- Witness for C5: attaching two "browse" abilities in order makes lookup
return the first after one attach and the second after both. -/
theorem whoCan_abilityTo_last_write_wins_witness :
    (aliceNoAbilities.whoCan ⟨"browse", 1⟩).abilityTo "browse" = .ok ⟨"browse", 1⟩ ∧
    ((aliceNoAbilities.whoCan ⟨"browse", 1⟩).whoCan ⟨"browse", 2⟩).abilityTo "browse"
      = .ok ⟨"browse", 2⟩ :=
  whoCan_abilityTo_last_write_wins aliceNoAbilities ⟨"browse", 1⟩ ⟨"browse", 2⟩ rfl

/-- C6: with no ability of the requested kind attached, `abilityTo` fails
with an `AbilityNotFoundError` naming the actor and the capability, and never
with a generic null/undefined-reference failure. -/
theorem abilityTo_missing_ability_error (actor : ModelActor) (kind : String)
    (h : actor.abilityOfKind kind = none) :
    actor.abilityTo kind
      = .error (.abilityNotFound (actor.name ++ " can't " ++ kind)) ∧
    ∀ m, actor.abilityTo kind ≠ .error (.nullReference m) := by
  refine ⟨by simp [ModelActor.abilityTo, h], ?_⟩
  intro m hm
  simp [ModelActor.abilityTo, h] at hm

/-- Witness for C6: Alice without abilities gets an AbilityNotFoundError for
"fly", never a null-reference failure. -/
theorem abilityTo_missing_ability_error_witness :
    aliceNoAbilities.abilityTo "fly"
      = .error (.abilityNotFound ("Alice" ++ " can't " ++ "fly")) ∧
    ∀ m, aliceNoAbilities.abilityTo "fly" ≠ .error (.nullReference m) :=
  abilityTo_missing_ability_error aliceNoAbilities "fly" rfl

/-- C7: discarding an actor with abilities [X succeeds, Y throws, Z succeeds]
still invokes the discard hooks of X and Z, and the aggregated failures name
Y specifically with its error — collected, not swallowed, and not aborting
the remaining cleanups. -/
theorem discard_collects_failures (X Y Z : DAbility) (e : JsError)
    (hX : X.discardOutcome = none) (hY : Y.discardOutcome = some e)
    (hZ : Z.discardOutcome = none) :
    discardAll [X, Y, Z] = ([X.name, Y.name, Z.name], [(Y.name, e)]) := by
  simp [discardAll, hX, hY, hZ]

/-- Witness for C7: all three hooks run; the single aggregated failure names
Y with its error. -/
theorem discard_collects_failures_witness :
    discardAll [⟨"X", none⟩, ⟨"Y", some (.error "cleanup failed")⟩, ⟨"Z", none⟩]
      = (["X", "Y", "Z"], [("Y", .error "cleanup failed")]) :=
  discard_collects_failures ⟨"X", none⟩ ⟨"Y", some (.error "cleanup failed")⟩
    ⟨"Z", none⟩ (.error "cleanup failed") rfl rfl rfl

/-- C8: `BrowseTheWebWithPlaywright.discard` is idempotent — run a second
time from the state the first run left, it changes nothing — and it never
throws, in particular not on a session whose resources were never touched. -/
theorem playwright_discard_idempotent (s : PlaywrightBrowsingSession) :
    BrowseTheWebWithPlaywright.discard (BrowseTheWebWithPlaywright.discard s).1
      = BrowseTheWebWithPlaywright.discard s ∧
    (BrowseTheWebWithPlaywright.discard s).2 = none ∧
    (BrowseTheWebWithPlaywright.discard { pages := [] }).2 = none := by
  refine ⟨?_, rfl, rfl⟩
  simp [BrowseTheWebWithPlaywright.discard, closeAllPages, List.map_map,
    Function.comp]

/-- C9: `Interaction.where` stores the description template verbatim — the
actor placeholder is not substituted at construction — together with the
location at the fixed stack offset 4, which on the construction stack is the
caller's own invocation site, not a factory-internal frame. -/
theorem interaction_where_stores_template_and_location {Actor : Type}
    (description : String) (fn : Actor → FnOutcome)
    (caller : FrameLoc) (rest : List FrameLoc) :
    (Interaction.whereFactory description fn
        (constructionStack (caller :: rest))).description = description ∧
    (Interaction.whereFactory description fn
        (constructionStack (caller :: rest))).location = some caller :=
  ⟨rfl, rfl⟩

/-- C10: the temp-file path of a TempFileOutputDescriptor is fixed once at
construction — `value` is determined by the construction-time file system
alone — and `cleanUp` removes exactly that path, leaving every other file and
the rest of the file-system state untouched, without failing. -/
theorem tempFile_fixed_path (fs0 fs1 : FileSystem) :
    (TempFileOutputDescriptor.make fs0).1.value
      = "serenity-" ++ toString fs0.nextTempId ∧
    ((TempFileOutputDescriptor.make fs0).1.cleanUp fs1).1.files
      = fs1.files.filter (fun q =>
          q ≠ (TempFileOutputDescriptor.make fs0).1.value) ∧
    ((TempFileOutputDescriptor.make fs0).1.cleanUp fs1).1.nextTempId
      = fs1.nextTempId ∧
    ((TempFileOutputDescriptor.make fs0).1.cleanUp fs1).2 = none :=
  ⟨rfl, rfl, rfl, rfl⟩

end Serenity
